import Mathlib

/-!
Verification of the tailwindcss-patch extraction-and-cache engine
(`TailwindcssPatcher` in `src/api/tailwindcss-patcher.ts`, together with
`resolveMajorVersion` and `resolveTailwindExecutionOptions` from the same
module).

The embedding is shallow: JavaScript `Set<string>` becomes `Finset String`,
`undefined`-able values become `Option`, thrown exceptions become
`Except String`, and the effect of a method on the cache store is made
explicit by returning the store's new persisted set together with flags
recording whether a read and a write happened.  External collaborators
(`getPackageInfoSync`, `collectClassesFromContexts`,
`collectClassesFromTailwindV4`, `extractProjectCandidatesWithPositions`,
`path.resolve`, the semver `coerce`) are passed in as parameters or modelled
at their documented interface.
-/

namespace TwPatch

/-- Cache reconciliation strategy (`cache.strategy` ∈ {merge, overwrite}). -/
inductive CacheStrategy where
  | merge
  | overwrite
deriving DecidableEq, Repr

/-- `cache` section of the normalized options (`enabled`, `strategy`,
`dir`, `file`). -/
structure CacheOptions where
  enabled : Bool
  strategy : CacheStrategy
  dir : String
  file : String
deriving DecidableEq, Repr

/-- Output format (`output.format` ∈ {json, lines}). -/
inductive OutputFormat where
  | json
  | lines
deriving DecidableEq, Repr

/-- `output.pretty` is `number | boolean` in the source
(`typeof pretty === 'number'` selects the JSON indent width). -/
inductive PrettySetting where
  | num (n : Nat)
  | flag (b : Bool)
deriving DecidableEq, Repr

/-- `output` section of the normalized options.  `file` is `Option` because
`extract` guards on its truthiness (`!this.options.output.file`). -/
structure OutputOptions where
  enabled : Bool
  file : Option String
  format : OutputFormat
  pretty : PrettySetting
  removeUniversalSelector : Bool
deriving DecidableEq, Repr

/-- Per-version sub-config (`tailwind.v2` / `tailwind.v3`): each field may be
absent, in which case the shared base field applies.  `postcssPlugin` is a
plugin value in the source; it is represented here by an opaque identifier
string, which is sound because the code only passes it through unchanged. -/
structure TailwindSubConfig where
  cwd : Option String
  config : Option String
  postcssPlugin : Option String
deriving DecidableEq, Repr

/-- A `SourceEntry` from `@tailwindcss/oxide` (external collaborator): a glob
source description.  Only identity matters to the code under verification. -/
structure SourceEntry where
  base : String
  pattern : String
deriving DecidableEq, Repr

/-- `tailwind.v4` sub-config (`cssEntries`, `sources`). -/
structure TailwindV4Config where
  cssEntries : Option (List String)
  sources : Option (List SourceEntry)
deriving DecidableEq, Repr

/-- `tailwind` section of the normalized options. -/
structure TailwindOptions where
  packageName : String
  resolvePaths : Option (List String)
  versionHint : Option Nat
  cwd : Option String
  config : Option String
  postcssPlugin : Option String
  v2 : Option TailwindSubConfig
  v3 : Option TailwindSubConfig
  v4 : Option TailwindV4Config
deriving DecidableEq, Repr

/-- `NormalizedTailwindcssPatchOptions`: the canonical, fully-defaulted
options record (fields not used by any verified operation — `filter`,
`features` — are omitted; no verified code path inspects them). -/
structure NormalizedOptions where
  projectRoot : String
  tailwind : TailwindOptions
  cache : CacheOptions
  output : OutputOptions
deriving DecidableEq, Repr

/-- The slice of `local-pkg`'s `PackageInfo` the orchestrator reads. -/
structure PackageInfo where
  name : String
  version : Option String
deriving DecidableEq, Repr

/-! ### Cache reconciliation (`mergeWithCache` / `mergeWithCacheSync`)

The `CacheStore` is a durable set of strings; its state is the persisted
`Finset String`.  A reconciliation run is modelled as a pure function from
(cache options, persisted set, observed set) to the returned set, the new
persisted set, and flags recording whether the store was read / written. -/

/-- Result of one cache reconciliation run. -/
structure CacheReconcileRun where
  returned : Finset String
  persisted : Finset String
  didRead : Bool
  didWrite : Bool
deriving DecidableEq

/-- `TailwindcssPatcher.mergeWithCache` (async variant), lines 252–274 of the
source: when the cache is disabled the observed set passes through with no
store access; otherwise the store is read, and under `merge` the union of
observed and existing is written and returned, while under `overwrite` a
non-empty observed set is written and returned and an empty observed set
leaves the store untouched and returns the existing set. -/
def mergeWithCache (cache : CacheOptions) (persisted observed : Finset String) :
    CacheReconcileRun :=
  if !cache.enabled then
    { returned := observed, persisted := persisted, didRead := false, didWrite := false }
  else
    let existing := persisted
    match cache.strategy with
    | CacheStrategy.merge =>
      let merged := observed ∪ existing
      { returned := merged, persisted := merged, didRead := true, didWrite := true }
    | CacheStrategy.overwrite =>
      if 0 < observed.card then
        { returned := observed, persisted := observed, didRead := true, didWrite := true }
      else
        { returned := existing, persisted := persisted, didRead := true, didWrite := false }

/-- `TailwindcssPatcher.mergeWithCacheSync`, lines 276–298: identical logic to
`mergeWithCache` with the synchronous store accessors. -/
def mergeWithCacheSync (cache : CacheOptions) (persisted observed : Finset String) :
    CacheReconcileRun :=
  if !cache.enabled then
    { returned := observed, persisted := persisted, didRead := false, didWrite := false }
  else
    let existing := persisted
    match cache.strategy with
    | CacheStrategy.merge =>
      let merged := observed ∪ existing
      { returned := merged, persisted := merged, didRead := true, didWrite := true }
    | CacheStrategy.overwrite =>
      if 0 < observed.card then
        { returned := observed, persisted := observed, didRead := true, didWrite := true }
      else
        { returned := existing, persisted := persisted, didRead := true, didWrite := false }

/-- The sync and async reconciliation paths are the same function of the
store state. -/
theorem mergeWithCacheSync_eq_mergeWithCache (cache : CacheOptions)
    (persisted observed : Finset String) :
    mergeWithCacheSync cache persisted observed = mergeWithCache cache persisted observed := rfl

/-! ### Version resolution (`resolveMajorVersion`) -/

/-- Modelled at the external interface: the major component of the semver
`coerce` of a version string (the `semver` package is an external
collaborator).  `coerce` extracts the first run of digits of the string as
the major version and yields nothing when the string holds no digit. -/
def coerceMajor (version : String) : Option Nat :=
  let digits := (version.toList.dropWhile fun c => !c.isDigit).takeWhile Char.isDigit
  if digits.isEmpty then none
  else some (digits.foldl (fun acc c => acc * 10 + (c.toNat - 48)) 0)

/-- The body of `resolveMajorVersion` after the hint check:
`if (version) { const coerced = coerce(version); … }` followed by the
fall-through `return 3`.  A truthy (non-empty) version string is coerced; a
major of 2, 3 or 4 is returned as-is, any larger major collapses to 4, and
every other case (absent, empty or uncoercible string, major below 2) falls
through to 3. -/
def resolveMajorFromVersion : Option String → Nat
  | some v =>
    if v = "" then 3
    else
      match coerceMajor v with
      | some major =>
        if major = 2 ∨ major = 3 ∨ major = 4 then major
        else if 4 ≤ major then 4
        else 3
      | none => 3
  | none => 3

/-- `resolveMajorVersion(version?, hint?)`, lines 123–142 of the source: an
explicit hint in {2,3,4} is returned verbatim (`hint && [2,3,4].includes(hint)`;
the separate truthiness check changes nothing since 0 is not in the list);
otherwise the version string decides via `resolveMajorFromVersion`. -/
def resolveMajorVersion (version : Option String) (hint : Option Nat) : Nat :=
  match hint with
  | some h =>
    if h = 2 ∨ h = 3 ∨ h = 4 then h
    else resolveMajorFromVersion version
  | none => resolveMajorFromVersion version

/-! ### Execution-option selection (`resolveTailwindExecutionOptions`) -/

/-- The options handed to `runTailwindBuild` for a v2/v3 build. -/
structure TailwindExecutionOptions where
  cwd : String
  config : Option String
  postcssPlugin : Option String
deriving DecidableEq, Repr

/-- `resolveTailwindExecutionOptions`, lines 144–170: for major 2 with a
present `v2` sub-config (resp. major 3 with `v3`), each field is the
sub-config field when present, else the shared base field, with the project
root as the final fallback for `cwd`; in every other case the shared base
fields apply with the project-root fallback for `cwd`. -/
def resolveTailwindExecutionOptions (normalized : NormalizedOptions)
    (majorVersion : Nat) : TailwindExecutionOptions :=
  let base := normalized.tailwind
  match majorVersion, base.v2, base.v3 with
  | 2, some v2, _ =>
    { cwd := ((v2.cwd).orElse fun _ => base.cwd).getD normalized.projectRoot
      config := (v2.config).orElse fun _ => base.config
      postcssPlugin := (v2.postcssPlugin).orElse fun _ => base.postcssPlugin }
  | 3, _, some v3 =>
    { cwd := ((v3.cwd).orElse fun _ => base.cwd).getD normalized.projectRoot
      config := (v3.config).orElse fun _ => base.config
      postcssPlugin := (v3.postcssPlugin).orElse fun _ => base.postcssPlugin }
  | _, _, _ =>
    { cwd := base.cwd.getD normalized.projectRoot
      config := base.config
      postcssPlugin := base.postcssPlugin }

/-! ### The orchestrator (`TailwindcssPatcher`) -/

/-- The `TailwindcssPatcher` instance state.  Its fields are exactly the
fields the class declares: `options`, `packageInfo`, `majorVersion` and
`cacheStore` (the store constructed from `options.cache`).  All four are
`readonly` and the class holds no further mutable state — in particular no
"build already executed" flag. -/
structure TailwindcssPatcher where
  options : NormalizedOptions
  packageInfo : PackageInfo
  majorVersion : Nat
  cacheStore : CacheOptions
deriving DecidableEq, Repr

/-- The constructor, lines 181–204, with input already past legacy
conversion and normalization (those adapters live in `src/options`, outside
the verified module) and with the external `getPackageInfoSync` result passed
in: a failed package lookup throws before any field is assigned; a
successful one fully initializes `packageInfo`, `majorVersion` (via
`resolveMajorVersion` on the installed version and the hint) and the cache
store. -/
def mkTailwindcssPatcher (resolved : NormalizedOptions)
    (packageLookup : Option PackageInfo) : Except String TailwindcssPatcher :=
  match packageLookup with
  | none =>
    Except.error
      ("Unable to locate Tailwind CSS package \"" ++ resolved.tailwind.packageName ++ "\".")
  | some info =>
    Except.ok
      { options := resolved
        packageInfo := info
        majorVersion := resolveMajorVersion info.version resolved.tailwind.versionHint
        cacheStore := resolved.cache }

/-- One invocation of the external `runTailwindBuild` collaborator, with the
arguments the orchestrator passes it. -/
structure BuildInvocation where
  cwd : String
  config : Option String
  majorVersion : Nat
  postcssPlugin : Option String
deriving DecidableEq, Repr

/-- `runTailwindBuildIfNeeded`, lines 222–232: for major version 2 or 3 it
resolves the execution options and invokes `runTailwindBuild`; for any other
major it does nothing.  The returned list is the trace of collaborator
invocations this call performs — note there is no gate other than the
major-version check. -/
def runTailwindBuildIfNeeded (p : TailwindcssPatcher) : List BuildInvocation :=
  if p.majorVersion = 2 ∨ p.majorVersion = 3 then
    let executionOptions := resolveTailwindExecutionOptions p.options p.majorVersion
    [{ cwd := executionOptions.cwd
       config := executionOptions.config
       majorVersion := p.majorVersion
       postcssPlugin := executionOptions.postcssPlugin }]
  else
    []

/-- `collectClassSetSync`, lines 243–250: throws for major version 4, and
otherwise returns the classes collected from the runtime contexts (the
context collection `collectClassesFromContexts` is an external collaborator;
its output is the `contextClasses` parameter). -/
def collectClassSetSync (p : TailwindcssPatcher) (contextClasses : Finset String) :
    Except String (Finset String) :=
  if p.majorVersion = 4 then
    Except.error
      "getClassSetSync is not supported for Tailwind CSS v4 projects. Use getClassSet instead."
  else
    Except.ok contextClasses

/-- Trace of one `getClassSet` call: the returned set, the cache store's
persisted set afterwards, the build invocations performed, and the cache
access flags. -/
structure ClassSetRun where
  returned : Finset String
  persisted : Finset String
  builds : List BuildInvocation
  didRead : Bool
  didWrite : Bool
deriving DecidableEq

/-- `getClassSet`, lines 300–304: run the build prerequisite if needed,
collect the observed set (collection is an external collaborator; its output
is the `observed` parameter) and reconcile it with the cache. -/
def getClassSet (p : TailwindcssPatcher) (observed persisted : Finset String) :
    ClassSetRun :=
  let builds := runTailwindBuildIfNeeded p
  let merged := mergeWithCache p.options.cache persisted observed
  { returned := merged.returned
    persisted := merged.persisted
    builds := builds
    didRead := merged.didRead
    didWrite := merged.didWrite }

/-- Trace of one `getClassSetSync` call: the result (or the thrown error),
the persisted set afterwards, and the cache access flags. -/
structure ClassSetSyncRun where
  result : Except String (Finset String)
  persisted : Finset String
  didRead : Bool
  didWrite : Bool

/-- `getClassSetSync`, lines 306–309: collect synchronously, then reconcile;
when collection throws, the error propagates before any cache access. -/
def getClassSetSync (p : TailwindcssPatcher) (contextClasses persisted : Finset String) :
    ClassSetSyncRun :=
  match collectClassSetSync p contextClasses with
  | Except.error e =>
    { result := Except.error e, persisted := persisted, didRead := false, didWrite := false }
  | Except.ok observed =>
    let merged := mergeWithCacheSync p.options.cache persisted observed
    { result := Except.ok merged.returned
      persisted := merged.persisted
      didRead := merged.didRead
      didWrite := merged.didWrite }

/-! ### `extract` -/

/-- `ExtractResult`: class list, class set, and the written filename when a
file was persisted. -/
structure ExtractResult where
  classList : List String
  classSet : Finset String
  filename : Option String
deriving DecidableEq

/-- The file write `extract` may perform, described structurally: the
resolved target path, the chosen format, the JSON indent width (`spaces`,
set only when `output.pretty` is a number and the format is json) and the
class list serialized. -/
structure WrittenFile where
  target : String
  format : OutputFormat
  spaces : Option Nat
  classList : List String
deriving DecidableEq, Repr

/-- JavaScript truthiness of `this.options.output.file`: absent or empty
strings are falsy. -/
def isTruthyFile : Option String → Bool
  | none => false
  | some s => !(s = "")

/-- `extract`, lines 311–342: `shouldWrite` defaults to `output.enabled`;
the class set comes from `getClassSet` (hence the `observed`/`persisted`
parameters of the underlying run); nothing is written unless `shouldWrite`
holds and `output.file` is truthy; on a write, the result additionally
carries the resolved target as `filename`.  `path.resolve` is an external
collaborator passed in as `resolvePath`. -/
def extract (p : TailwindcssPatcher) (resolvePath : String → String)
    (observed persisted : Finset String) (write? : Option Bool) :
    ExtractResult × Option WrittenFile :=
  let shouldWrite := write?.getD p.options.output.enabled
  let run := getClassSet p observed persisted
  let classSet := run.returned
  let classList := classSet.sort (· ≤ ·)
  let result : ExtractResult := { classList := classList, classSet := classSet, filename := none }
  match p.options.output.file with
  | none => (result, none)
  | some f =>
    if shouldWrite ∧ isTruthyFile (some f) then
      let target := resolvePath f
      let spaces :=
        match p.options.output.pretty with
        | PrettySetting.num n => some n
        | PrettySetting.flag _ => none
      let written : WrittenFile :=
        { target := target
          format := p.options.output.format
          spaces := if p.options.output.format = OutputFormat.json then spaces else none
          classList := classList }
      ({ result with filename := some target }, some written)
    else
      (result, none)

/-! ### Token collection (`collectContentTokens`) -/

/-- One detected candidate occurrence (`TailwindTokenLocation`).  The source
field `end` is called `stop` here because `end` is a Lean keyword. -/
structure TailwindTokenLocation where
  file : String
  relativeFile : String
  line : Nat
  column : Nat
  start : Nat
  stop : Nat
  rawCandidate : String
deriving DecidableEq, Repr

/-- `TailwindTokenReport`: entries, number of files scanned, and skipped
files with reasons. -/
structure TailwindTokenReport where
  entries : List TailwindTokenLocation
  filesScanned : Nat
  skippedFiles : List (String × String)
deriving DecidableEq, Repr

/-- The argument record `collectContentTokens` passes to the external
`extractProjectCandidatesWithPositions`. -/
structure ScanRequest where
  cwd : String
  sources : List SourceEntry
deriving DecidableEq, Repr

/-- `collectContentTokens`, lines 347–352: delegates to
`extractProjectCandidatesWithPositions` (an external function of the
extraction module, passed in as `scan`), defaulting `cwd` to the normalized
project root and `sources` to `tailwind.v4?.sources ?? []`. -/
def collectContentTokens (p : TailwindcssPatcher)
    (scan : ScanRequest → TailwindTokenReport)
    (cwd? : Option String) (sources? : Option (List SourceEntry)) :
    TailwindTokenReport :=
  scan
    { cwd := cwd?.getD p.options.projectRoot
      sources := sources?.getD ((p.options.tailwind.v4.bind fun v4 => v4.sources).getD []) }

/-- Modelled from the spec: the Token Extractor
(`extractProjectCandidatesWithPositions` of `src/extraction/candidate-extractor`,
whose implementation is not among the verified sources) "scans the files
matched by `sources`"; an empty sources list matches no files, so zero files
are scanned, no entries are produced and no file is skipped.  This predicate
states that interface contract for a given extractor function. -/
def scansNothingOnEmptySources (scan : ScanRequest → TailwindTokenReport) : Prop :=
  ∀ cwd, scan { cwd := cwd, sources := [] } =
    { entries := [], filesScanned := 0, skippedFiles := [] }

/-! ### Concrete fixtures shared by the witness and counterexample theorems -/

/-- Shared `tailwind` options: bare defaults, no sub-configs. -/
def sampleTailwind : TailwindOptions :=
  { packageName := "tailwindcss", resolvePaths := none, versionHint := none,
    cwd := none, config := none, postcssPlugin := none,
    v2 := none, v3 := none, v4 := none }

/-- Shared `output` options with writing disabled. -/
def sampleOutput : OutputOptions :=
  { enabled := false, file := none, format := OutputFormat.json,
    pretty := PrettySetting.flag false, removeUniversalSelector := true }

/-- Enabled cache with the `merge` strategy. -/
def sampleMergeCache : CacheOptions :=
  { enabled := true, strategy := CacheStrategy.merge, dir := ".tw-patch", file := "classSet.json" }

/-- Enabled cache with the `overwrite` strategy. -/
def sampleOverwriteCache : CacheOptions :=
  { sampleMergeCache with strategy := CacheStrategy.overwrite }

/-- Disabled cache. -/
def sampleDisabledCache : CacheOptions :=
  { sampleMergeCache with enabled := false }

/-- Normalized options of a plain v3 project. -/
def sampleOptionsV3 : NormalizedOptions :=
  { projectRoot := "/proj", tailwind := sampleTailwind,
    cache := sampleMergeCache, output := sampleOutput }

/-- Package info of an installed tailwindcss 3.1.0. -/
def samplePackageInfoV3 : PackageInfo :=
  { name := "tailwindcss", version := some "3.1.0" }

/-- The patcher instance the constructor produces for the v3 fixture. -/
def samplePatcherV3 : TailwindcssPatcher :=
  { options := sampleOptionsV3, packageInfo := samplePackageInfoV3,
    majorVersion := 3, cacheStore := sampleMergeCache }

/-- A patcher instance for a v4 project. -/
def samplePatcherV4 : TailwindcssPatcher :=
  { options := sampleOptionsV3,
    packageInfo := { name := "tailwindcss", version := some "4.0.0" },
    majorVersion := 4, cacheStore := sampleMergeCache }

/-- A v3 sub-config overriding `cwd` and `config`. -/
def sampleSubV3 : TailwindSubConfig :=
  { cwd := some "./fixtures/apps/basic",
    config := some "./fixtures/apps/basic/tailwind.config.js",
    postcssPlugin := none }

/-- Options carrying the v3 sub-config. -/
def sampleOptionsWithSubV3 : NormalizedOptions :=
  { sampleOptionsV3 with tailwind := { sampleTailwind with v3 := some sampleSubV3 } }

/-- A patcher whose output section is enabled but has no `output.file`. -/
def samplePatcherNoOutputFile : TailwindcssPatcher :=
  { samplePatcherV3 with
      options := { sampleOptionsV3 with output := { sampleOutput with enabled := true } } }

/-- An extractor that scans nothing, satisfying the empty-sources contract. -/
def trivialScan : ScanRequest → TailwindTokenReport :=
  fun _ => { entries := [], filesScanned := 0, skippedFiles := [] }

/-! ## Claim theorems -/

/-- C1: under the `overwrite` strategy with the cache enabled, a non-empty
observed set `O` is written verbatim to the store and returned, while an
empty observed set writes nothing, leaves the persisted set `P` unchanged
and returns `P` — for both `mergeWithCache` and `mergeWithCacheSync` (as
invoked by `getClassSet` / `getClassSetSync`). -/
theorem overwrite_policy_law (cache : CacheOptions) (P O : Finset String)
    (henabled : cache.enabled = true)
    (hstrat : cache.strategy = CacheStrategy.overwrite) :
    (O.Nonempty →
      mergeWithCache cache P O =
        { returned := O, persisted := O, didRead := true, didWrite := true } ∧
      mergeWithCacheSync cache P O =
        { returned := O, persisted := O, didRead := true, didWrite := true }) ∧
    (O = ∅ →
      mergeWithCache cache P O =
        { returned := P, persisted := P, didRead := true, didWrite := false } ∧
      mergeWithCacheSync cache P O =
        { returned := P, persisted := P, didRead := true, didWrite := false }) := by
  constructor
  · intro hne
    have hcard : 0 < O.card := Finset.card_pos.mpr hne
    constructor <;> simp [mergeWithCache, mergeWithCacheSync, henabled, hstrat, hcard]
  · intro he
    subst he
    constructor <;> simp [mergeWithCache, mergeWithCacheSync, henabled, hstrat]

/-- C1 witness: the overwrite law evaluated at the concrete store
`{"old"}` with observed sets `{"btn"}` and `∅`. -/
theorem overwrite_policy_law_witness :
    mergeWithCache sampleOverwriteCache {"old"} {"btn"} =
      { returned := {"btn"}, persisted := {"btn"}, didRead := true, didWrite := true } ∧
    mergeWithCache sampleOverwriteCache {"old"} (∅ : Finset String) =
      { returned := {"old"}, persisted := {"old"}, didRead := true, didWrite := false } :=
  ⟨((overwrite_policy_law sampleOverwriteCache {"old"} {"btn"} rfl rfl).1
      ⟨"btn", Finset.mem_singleton_self "btn"⟩).1,
   ((overwrite_policy_law sampleOverwriteCache {"old"} ∅ rfl rfl).2 rfl).1⟩

/-- C2: under the `merge` strategy with the cache enabled, both
reconciliation variants return `P ∪ O`, write `P ∪ O` back to the store
(also when `O` is empty, since the statement holds for every `O`), and the
persisted set grows monotonically: `P` is contained in the new persisted
set. -/
theorem merge_policy_law (cache : CacheOptions) (P O : Finset String)
    (henabled : cache.enabled = true)
    (hstrat : cache.strategy = CacheStrategy.merge) :
    mergeWithCache cache P O =
      { returned := P ∪ O, persisted := P ∪ O, didRead := true, didWrite := true } ∧
    mergeWithCacheSync cache P O =
      { returned := P ∪ O, persisted := P ∪ O, didRead := true, didWrite := true } ∧
    P ⊆ (mergeWithCache cache P O).persisted := by
  have h : mergeWithCache cache P O =
      { returned := P ∪ O, persisted := P ∪ O, didRead := true, didWrite := true } := by
    simp [mergeWithCache, henabled, hstrat, Finset.union_comm]
  refine ⟨h, by rw [mergeWithCacheSync_eq_mergeWithCache]; exact h, ?_⟩
  rw [h]
  exact Finset.subset_union_left

/-- C2 witness: the merge law at the concrete store `{"a"}` with an empty
observed set — the union is still written back. -/
theorem merge_policy_law_witness :
    mergeWithCache sampleMergeCache {"a"} (∅ : Finset String) =
      { returned := {"a"} ∪ ∅, persisted := {"a"} ∪ ∅, didRead := true, didWrite := true } :=
  (merge_policy_law sampleMergeCache {"a"} ∅ rfl rfl).1

/-- C7: with `cache.enabled = false` both reconciliation variants return the
observed set unchanged and neither read nor write the store, so the
persisted set stays exactly as it was. -/
theorem cache_disabled_passthrough (cache : CacheOptions) (P O : Finset String)
    (hdisabled : cache.enabled = false) :
    mergeWithCache cache P O =
      { returned := O, persisted := P, didRead := false, didWrite := false } ∧
    mergeWithCacheSync cache P O =
      { returned := O, persisted := P, didRead := false, didWrite := false } := by
  constructor <;> simp [mergeWithCache, mergeWithCacheSync, hdisabled]

/-- C7 witness: the disabled-cache pass-through at a concrete store and
observed set. -/
theorem cache_disabled_passthrough_witness :
    mergeWithCache sampleDisabledCache {"kept"} {"btn"} =
      { returned := {"btn"}, persisted := {"kept"}, didRead := false, didWrite := false } :=
  (cache_disabled_passthrough sampleDisabledCache {"kept"} {"btn"} rfl).1

/-- Helper: `resolveMajorFromVersion` only ever produces 2, 3 or 4. -/
theorem resolveMajorFromVersion_range (v : Option String) :
    resolveMajorFromVersion v = 2 ∨ resolveMajorFromVersion v = 3 ∨
      resolveMajorFromVersion v = 4 := by
  match v with
  | none => simp [resolveMajorFromVersion]
  | some s =>
    by_cases hs : s = ""
    · simp [resolveMajorFromVersion, hs]
    · cases hcm : coerceMajor s with
      | none => simp [resolveMajorFromVersion, hs, hcm]
      | some m =>
        by_cases h234 : m = 2 ∨ m = 3 ∨ m = 4
        · rcases h234 with h | h | h <;>
            simp [resolveMajorFromVersion, hs, hcm, h]
        · by_cases h4 : 4 ≤ m <;>
            simp [resolveMajorFromVersion, hs, hcm, h234, h4]

/-- Helper: the empty string carries no digits, so it does not coerce. -/
theorem coerceMajor_empty : coerceMajor "" = none := rfl

/-- C4: `resolveMajorVersion` always lands in {2,3,4} and never throws (it
is a total function); an explicit hint in {2,3,4} wins verbatim; otherwise a
coerced major of 2 or 3 is returned as-is, any coerced major ≥ 4 collapses
to 4, and an absent or uncoercible version string defaults to 3; finally the
four documented evaluations hold. -/
theorem resolveMajorVersion_spec :
    (∀ (v : Option String) (h : Nat), (h = 2 ∨ h = 3 ∨ h = 4) →
      resolveMajorVersion v (some h) = h) ∧
    (∀ (v : Option String) (hint : Option Nat),
      resolveMajorVersion v hint = 2 ∨ resolveMajorVersion v hint = 3 ∨
        resolveMajorVersion v hint = 4) ∧
    (∀ (s : String) (m : Nat), coerceMajor s = some m → (m = 2 ∨ m = 3) →
      resolveMajorVersion (some s) none = m) ∧
    (∀ (s : String) (m : Nat), coerceMajor s = some m → 4 ≤ m →
      resolveMajorVersion (some s) none = 4) ∧
    (∀ s : String, coerceMajor s = none → resolveMajorVersion (some s) none = 3) ∧
    resolveMajorVersion none none = 3 ∧
    resolveMajorVersion (some "4.0.0") none = 4 ∧
    resolveMajorVersion (some "4.5.2") none = 4 ∧
    resolveMajorVersion (some "3.1.0") (some 2) = 2 := by
  refine ⟨?_, ?_, ?_, ?_, ?_, ?_, ?_, ?_, ?_⟩
  · intro v h hh
    simp only [resolveMajorVersion]
    exact if_pos hh
  · intro v hint
    cases hint with
    | none => exact resolveMajorFromVersion_range v
    | some h =>
      by_cases hh : h = 2 ∨ h = 3 ∨ h = 4
      · simp only [resolveMajorVersion, if_pos hh]
        exact hh
      · simp only [resolveMajorVersion, if_neg hh]
        exact resolveMajorFromVersion_range v
  · intro s m hcm hm
    have hs : ¬ s = "" := by
      intro h
      rw [h, coerceMajor_empty] at hcm
      exact Option.noConfusion hcm
    rcases hm with h | h <;>
      simp [resolveMajorVersion, resolveMajorFromVersion, hs, hcm, h]
  · intro s m hcm h4
    have hs : ¬ s = "" := by
      intro h
      rw [h, coerceMajor_empty] at hcm
      exact Option.noConfusion hcm
    by_cases h234 : m = 2 ∨ m = 3 ∨ m = 4
    · rcases h234 with h | h | h
      · omega
      · omega
      · simp [resolveMajorVersion, resolveMajorFromVersion, hs, hcm, h]
    · simp [resolveMajorVersion, resolveMajorFromVersion, hs, hcm, h234, h4]
  · intro s hcm
    by_cases hs : s = "" <;>
      simp [resolveMajorVersion, resolveMajorFromVersion, hs, hcm]
  · rfl
  · decide
  · decide
  · decide

/-- C4 witness: the hypothesis-bearing conjuncts evaluated at concrete
inputs — hint 2 beats an installed 3.1.0, and the coerced major of "5.0.1"
collapses to 4. -/
theorem resolveMajorVersion_spec_witness :
    resolveMajorVersion (some "3.1.0") (some 2) = 2 ∧
    resolveMajorVersion (some "5.0.1") none = 4 ∧
    resolveMajorVersion (some "not-a-version") none = 3 :=
  ⟨resolveMajorVersion_spec.1 (some "3.1.0") 2 (Or.inl rfl),
   resolveMajorVersion_spec.2.2.2.1 "5.0.1" 5 (by decide) (by decide),
   resolveMajorVersion_spec.2.2.2.2.1 "not-a-version" (by decide)⟩

/-- C3 counterexample: a concrete v3 patcher — exactly as the constructor
produces it — performs a `runTailwindBuild` invocation on its first
`getClassSet` call and again on the second call on the same instance with
unchanged inputs (the second call's build trace is also non-empty), so the
build is not executed at most once per instance and no "build already
executed" flag gates it. -/
theorem getClassSet_builds_again_counterexample :
    mkTailwindcssPatcher sampleOptionsV3 (some samplePackageInfoV3) =
      Except.ok samplePatcherV3 ∧
    (getClassSet samplePatcherV3 {"btn"} ∅).builds.length = 1 ∧
    (getClassSet samplePatcherV3 {"btn"}
        (getClassSet samplePatcherV3 {"btn"} ∅).persisted).builds.length = 1 :=
  ⟨rfl, rfl, rfl⟩

/-- C3 amended: for major version 2 or 3, every `getClassSet` call —
including a second call on the same instance — invokes `runTailwindBuild`
with the resolved execution options; for major version 4 no call ever does.
The class holds no build-executed flag, so the trace is identical on every
call. -/
theorem runTailwindBuild_every_call (p : TailwindcssPatcher)
    (o1 o2 P : Finset String) :
    (p.majorVersion = 2 ∨ p.majorVersion = 3 →
      (getClassSet p o1 P).builds =
        [{ cwd := (resolveTailwindExecutionOptions p.options p.majorVersion).cwd
           config := (resolveTailwindExecutionOptions p.options p.majorVersion).config
           majorVersion := p.majorVersion
           postcssPlugin :=
             (resolveTailwindExecutionOptions p.options p.majorVersion).postcssPlugin }] ∧
      (getClassSet p o2 (getClassSet p o1 P).persisted).builds =
        (getClassSet p o1 P).builds) ∧
    (p.majorVersion = 4 → (getClassSet p o1 P).builds = []) := by
  constructor
  · intro h23
    constructor <;> simp [getClassSet, runTailwindBuildIfNeeded, h23]
  · intro h4
    simp [getClassSet, runTailwindBuildIfNeeded, h4]

/-- C3 amended witness: the amended statement evaluated on the concrete v3
instance — both calls produce the same single-element build trace — and on
the v4 instance, which never builds. -/
theorem runTailwindBuild_every_call_witness :
    (getClassSet samplePatcherV3 {"btn"} ∅).builds =
      [{ cwd := (resolveTailwindExecutionOptions samplePatcherV3.options 3).cwd
         config := (resolveTailwindExecutionOptions samplePatcherV3.options 3).config
         majorVersion := 3
         postcssPlugin :=
           (resolveTailwindExecutionOptions samplePatcherV3.options 3).postcssPlugin }] ∧
    (getClassSet samplePatcherV4 {"btn"} ∅).builds = [] :=
  ⟨((runTailwindBuild_every_call samplePatcherV3 {"btn"} {"btn"} ∅).1 (Or.inr rfl)).1,
   (runTailwindBuild_every_call samplePatcherV4 {"btn"} {"btn"} ∅).2 rfl⟩

/-- C5: for a patcher resolved to major version 4, `getClassSetSync` fails
with the error message identifying synchronous collection as unsupported for
Tailwind CSS v4, without any fallback and without reading or writing the
cache: the persisted set stays exactly `P`. -/
theorem getClassSetSync_v4_unsupported (p : TailwindcssPatcher)
    (contextClasses P : Finset String) (h4 : p.majorVersion = 4) :
    getClassSetSync p contextClasses P =
      { result := Except.error
          "getClassSetSync is not supported for Tailwind CSS v4 projects. Use getClassSet instead."
        persisted := P, didRead := false, didWrite := false } := by
  simp [getClassSetSync, collectClassSetSync, h4]

/-- C5 witness: the v4 failure evaluated on the concrete v4 instance. -/
theorem getClassSetSync_v4_unsupported_witness :
    getClassSetSync samplePatcherV4 {"btn"} {"kept"} =
      { result := Except.error
          "getClassSetSync is not supported for Tailwind CSS v4 projects. Use getClassSet instead."
        persisted := {"kept"}, didRead := false, didWrite := false } :=
  getClassSetSync_v4_unsupported samplePatcherV4 {"btn"} {"kept"} rfl

/-- C6: the constructor fails fast — a failed package lookup throws (no
patcher value is produced) with a message naming the unresolvable package,
and a successful lookup produces an instance whose `packageInfo`,
`majorVersion` (resolved from the installed version and the hint) and cache
store are fully initialized. -/
theorem constructor_fail_fast (resolved : NormalizedOptions) :
    mkTailwindcssPatcher resolved none =
      Except.error
        ("Unable to locate Tailwind CSS package \"" ++
          resolved.tailwind.packageName ++ "\".") ∧
    ∀ info : PackageInfo,
      mkTailwindcssPatcher resolved (some info) =
        Except.ok
          { options := resolved
            packageInfo := info
            majorVersion := resolveMajorVersion info.version resolved.tailwind.versionHint
            cacheStore := resolved.cache } :=
  ⟨rfl, fun _ => rfl⟩

/-- C8: field-level precedence of the v2/v3 execution options — with a
matching per-version sub-config present, each of `cwd`, `config` and
`postcssPlugin` is the sub-config field when set, else the shared `tailwind`
base field, with the project root as the final fallback for `cwd`; with the
matching sub-config absent, the base fields apply with the project-root
fallback for `cwd`. -/
theorem resolveTailwindExecutionOptions_precedence (n : NormalizedOptions) :
    (∀ s, n.tailwind.v2 = some s →
      resolveTailwindExecutionOptions n 2 =
        { cwd := ((s.cwd).orElse fun _ => n.tailwind.cwd).getD n.projectRoot
          config := (s.config).orElse fun _ => n.tailwind.config
          postcssPlugin := (s.postcssPlugin).orElse fun _ => n.tailwind.postcssPlugin }) ∧
    (n.tailwind.v2 = none →
      resolveTailwindExecutionOptions n 2 =
        { cwd := n.tailwind.cwd.getD n.projectRoot
          config := n.tailwind.config
          postcssPlugin := n.tailwind.postcssPlugin }) ∧
    (∀ s, n.tailwind.v3 = some s →
      resolveTailwindExecutionOptions n 3 =
        { cwd := ((s.cwd).orElse fun _ => n.tailwind.cwd).getD n.projectRoot
          config := (s.config).orElse fun _ => n.tailwind.config
          postcssPlugin := (s.postcssPlugin).orElse fun _ => n.tailwind.postcssPlugin }) ∧
    (n.tailwind.v3 = none →
      resolveTailwindExecutionOptions n 3 =
        { cwd := n.tailwind.cwd.getD n.projectRoot
          config := n.tailwind.config
          postcssPlugin := n.tailwind.postcssPlugin }) := by
  refine ⟨?_, ?_, ?_, ?_⟩
  · intro s h
    cases hv3 : n.tailwind.v3 <;>
      simp [resolveTailwindExecutionOptions, h, hv3]
  · intro h
    cases hv3 : n.tailwind.v3 <;>
      simp [resolveTailwindExecutionOptions, h, hv3]
  · intro s h
    cases hv2 : n.tailwind.v2 <;>
      simp [resolveTailwindExecutionOptions, h, hv2]
  · intro h
    cases hv2 : n.tailwind.v2 <;>
      simp [resolveTailwindExecutionOptions, h, hv2]

/-- C8 witness: the precedence rule evaluated on the fixture whose `v3`
sub-config overrides `cwd` and `config` — the sub-config values win and the
absent `postcssPlugin` falls back to the (absent) base field. -/
theorem resolveTailwindExecutionOptions_precedence_witness :
    resolveTailwindExecutionOptions sampleOptionsWithSubV3 3 =
      { cwd := "./fixtures/apps/basic"
        config := some "./fixtures/apps/basic/tailwind.config.js"
        postcssPlugin := none } := by
  have h :=
    (resolveTailwindExecutionOptions_precedence sampleOptionsWithSubV3).2.2.1 sampleSubV3 rfl
  simpa [sampleSubV3, sampleOptionsWithSubV3, sampleTailwind] using h

/-- C9: when the resolved write flag is true (explicit or defaulted from
`output.enabled`) but `output.file` is not set, `extract` writes nothing and
returns the class list and class set with no `filename`; and in every case
`filename` is present in the result exactly when a file was written, naming
the written target. -/
theorem extract_write_filename (p : TailwindcssPatcher) (resolvePath : String → String)
    (observed persisted : Finset String) (writeFlag : Option Bool) :
    (writeFlag.getD p.options.output.enabled = true →
      isTruthyFile p.options.output.file = false →
      (extract p resolvePath observed persisted writeFlag).2 = none ∧
      (extract p resolvePath observed persisted writeFlag).1 =
        { classList := (getClassSet p observed persisted).returned.sort (· ≤ ·)
          classSet := (getClassSet p observed persisted).returned
          filename := none }) ∧
    ((extract p resolvePath observed persisted writeFlag).1.filename.isSome ↔
      (extract p resolvePath observed persisted writeFlag).2.isSome) ∧
    (∀ w, (extract p resolvePath observed persisted writeFlag).2 = some w →
      (extract p resolvePath observed persisted writeFlag).1.filename = some w.target) := by
  cases hf : p.options.output.file with
  | none =>
    refine ⟨fun _ _ => ?_, ?_, ?_⟩
    · constructor <;> simp [extract, hf]
    · simp [extract, hf]
    · intro w hw
      simp [extract, hf] at hw
  | some f =>
    by_cases hc : (writeFlag.getD p.options.output.enabled = true) ∧ isTruthyFile (some f) = true
    · refine ⟨fun _ ht => ?_, ?_, ?_⟩
      · exact absurd hc.2 (by simp [ht])
      · simp [extract, hf, hc.1, hc.2]
      · intro w hw
        simp [extract, hf, hc.1, hc.2] at hw ⊢
        rw [← hw]
    · have hc' : ¬ ((writeFlag.getD p.options.output.enabled : Prop) ∧
          (isTruthyFile (some f) : Prop)) := by
        simpa using hc
      refine ⟨fun _ _ => ?_, ?_, ?_⟩
      · constructor <;> simp [extract, hf, hc']
      · simp [extract, hf, hc']
      · intro w hw
        simp [extract, hf, hc'] at hw

/-- C9 witness: on the fixture with output enabled and no `output.file`,
`extract` (with the resolved write flag defaulting to true) writes nothing
and returns no `filename`. -/
theorem extract_write_filename_witness :
    (extract samplePatcherNoOutputFile (fun s => s) {"btn"} ∅ none).2 = none ∧
    (extract samplePatcherNoOutputFile (fun s => s) {"btn"} ∅ none).1.filename = none := by
  have h :=
    (extract_write_filename samplePatcherNoOutputFile (fun s => s) {"btn"} ∅ none).1 rfl rfl
  exact ⟨h.1, by rw [h.2]⟩

/-- C10: a `collectContentTokens` call without arguments scans with `cwd`
equal to the normalized project root and `sources` equal to
`tailwind.v4.sources` when present; when no v4 sources are configured it
scans the empty sources list and (by the extractor's contract) yields the
empty report; and the outcome does not depend on the resolved major version
— any patcher with the same options gets the same report. -/
theorem collectContentTokens_defaults (p : TailwindcssPatcher)
    (scan : ScanRequest → TailwindTokenReport)
    (hscan : scansNothingOnEmptySources scan) :
    (∀ v4cfg srcs, p.options.tailwind.v4 = some v4cfg → v4cfg.sources = some srcs →
      collectContentTokens p scan none none =
        scan { cwd := p.options.projectRoot, sources := srcs }) ∧
    ((p.options.tailwind.v4.bind fun v4 => v4.sources) = none →
      collectContentTokens p scan none none =
        { entries := [], filesScanned := 0, skippedFiles := [] }) ∧
    (∀ q : TailwindcssPatcher, q.options = p.options →
      collectContentTokens q scan none none = collectContentTokens p scan none none) := by
  refine ⟨?_, ?_, ?_⟩
  · intro v4cfg srcs h1 h2
    simp [collectContentTokens, h1, h2]
  · intro h
    have : collectContentTokens p scan none none =
        scan { cwd := p.options.projectRoot, sources := [] } := by
      simp [collectContentTokens, h]
    rw [this]
    exact hscan p.options.projectRoot
  · intro q hq
    simp [collectContentTokens, hq]

/-- C10 witness: on the v3 fixture (no v4 sources configured) with a
contract-satisfying extractor, the no-argument call yields the empty
report. -/
theorem collectContentTokens_defaults_witness :
    collectContentTokens samplePatcherV3 trivialScan none none =
      { entries := [], filesScanned := 0, skippedFiles := [] } :=
  (collectContentTokens_defaults samplePatcherV3 trivialScan (fun _ => rfl)).2.1 rfl

end TwPatch
